import Mathlib

/-!
Verification of the lumixengine_visualscript core: a shallow embedding of
the kvm stack machine and bytecode writer (src/external/kvm.c, kvm.h) and of
the visual-script graph model, (de)serialization and code generation
(src/src/editor/visual_script_plugins.cpp), together with theorems settling
the specification claims.

Conventions of the embedding:
* Machine integers (`kvm_u32`) are `Nat` with explicit wrap-around (`% 2^32`)
  wherever the C code's unsigned arithmetic can wrap.
* The kvm bytecode buffer is a list of 32-bit units ("words").  In the C
  source every opcode and every operand occupies a multiple of 4 bytes
  (`sizeof(KVM_OP) = sizeof(kvm_u32) = 4`, `sizeof(kvm_u64) = 8`), so all
  instruction-pointer and label offsets are multiples of 4; the embedding
  counts them in 4-byte units (byte offset = 4 × word offset).  Capacity
  checks of the writer, which the source performs in bytes against constant
  instruction sizes, keep the byte counts of the source.
* The VM stack and the environment (`kvm_u32` arrays accessed without
  bounds checks) are total functions `Nat → Nat`.
* Float (f32) values are carried as their 32-bit patterns; the float
  operations of the VM (`+`, `*`, `<`, `>` on reinterpreted bits) are an
  abstract parameter `FloatOps`, since no claim depends on IEEE semantics.
* The host syscall callback is an abstract parameter `KVM → Nat → KVM`.
-/

namespace VisualScript

/-- 2^32, the modulus of `kvm_u32` arithmetic. -/
def U32MOD : Nat := 4294967296

/-- Wrap a value to `kvm_u32` range. -/
def umod (n : Nat) : Nat := n % U32MOD

/-- `kvm_u32` addition (wraps). -/
def uadd (a b : Nat) : Nat := (a + b) % U32MOD

/-- `kvm_u32` subtraction (wraps), for `a`, `b` already reduced mod 2^32. -/
def usub (a b : Nat) : Nat := (a + U32MOD - b % U32MOD) % U32MOD

/-- Pointwise update of a function-modelled array cell. -/
def updFn (f : Nat → Nat) (i v : Nat) : Nat → Nat :=
  fun j => if j = i then v else f j

/-! ### KVM opcodes (enum `KVM_OP` of kvm.c, in declaration order) -/

def OP_END : Nat := 0
def OP_SYSCALL : Nat := 1
def OP_CONST32 : Nat := 2
def OP_CONST64 : Nat := 3
def OP_POP : Nat := 4
def OP_EQ : Nat := 5
def OP_NEQ : Nat := 6
def OP_LT : Nat := 7
def OP_LTF : Nat := 8
def OP_GT : Nat := 9
def OP_GTF : Nat := 10
def OP_ADD : Nat := 11
def OP_ADDF : Nat := 12
def OP_MUL : Nat := 13
def OP_MULF : Nat := 14
def OP_JMP : Nat := 15
def OP_RET : Nat := 16
def OP_CALL : Nat := 17
def OP_GET_LOCAL : Nat := 18
def OP_GET : Nat := 19
def OP_SET : Nat := 20

/-- Modelled from the spec: the sentinel `KVM_INVALID_LABEL` used by
`kvm_bc_create_label` in kvm.c is not defined anywhere under src/; the spec
describes the label table as mapping a label id to a resolved offset or
"unresolved", so the sentinel is modelled as the all-ones `kvm_u32`. -/
def KVM_INVALID_LABEL : Nat := 4294967295

/-! ### Bytecode writer (`kvm_bc_writer`, kvm.h / kvm.c)

`bytecode` is the written buffer (in words); the write cursor `ip` of the
source is `bytecode + 4 * buf.length` (bytes).  `labels` models the
`kvm_label labels[1024]` array (its uninitialized cells are modelled as 0);
`labelsCount` is `labels_count`. -/

structure BCWriter where
  buf : List Nat
  capacity : Nat
  labels : List Nat
  labelsCount : Nat
  deriving Repr

/-- `kvm_bc_start_write`. -/
def bcStartWrite (capacity : Nat) : BCWriter :=
  { buf := [], capacity := capacity, labels := List.replicate 1024 0, labelsCount := 0 }

/-- The macro `DEFINE_SIMPLE_OP_WRITER`: emit a bare opcode (4 bytes) unless
`writer->capacity < sizeof(KVM_OP)`. -/
def writeSimpleOp (op : Nat) (w : BCWriter) : BCWriter :=
  if w.capacity < 4 then w else { w with buf := w.buf ++ [op] }

/-- The macro `DEFINE_SIMPLE_OP_WRITER_U32`: emit opcode plus one `kvm_u32`
operand (8 bytes) unless `writer->capacity < sizeof(KVM_OP) + sizeof(arg)`. -/
def writeOpU32 (op arg : Nat) (w : BCWriter) : BCWriter :=
  if w.capacity < 8 then w else { w with buf := w.buf ++ [op, arg] }

def kvm_bc_end (w : BCWriter) : BCWriter := writeSimpleOp OP_END w
def kvm_bc_pop (w : BCWriter) : BCWriter := writeSimpleOp OP_POP w
def kvm_bc_add (w : BCWriter) : BCWriter := writeSimpleOp OP_ADD w
def kvm_bc_addf (w : BCWriter) : BCWriter := writeSimpleOp OP_ADDF w
def kvm_bc_mul (w : BCWriter) : BCWriter := writeSimpleOp OP_MUL w
def kvm_bc_mulf (w : BCWriter) : BCWriter := writeSimpleOp OP_MULF w
def kvm_bc_ret (w : BCWriter) : BCWriter := writeSimpleOp OP_RET w
def kvm_bc_eq (w : BCWriter) : BCWriter := writeSimpleOp OP_EQ w
def kvm_bc_neq (w : BCWriter) : BCWriter := writeSimpleOp OP_NEQ w
def kvm_bc_gt (w : BCWriter) : BCWriter := writeSimpleOp OP_GT w
def kvm_bc_gtf (w : BCWriter) : BCWriter := writeSimpleOp OP_GTF w
def kvm_bc_lt (w : BCWriter) : BCWriter := writeSimpleOp OP_LT w
def kvm_bc_ltf (w : BCWriter) : BCWriter := writeSimpleOp OP_LTF w

def kvm_bc_jmp (addr : Nat) (w : BCWriter) : BCWriter := writeOpU32 OP_JMP addr w
def kvm_bc_call (f : Nat) (w : BCWriter) : BCWriter := writeOpU32 OP_CALL f w
def kvm_bc_get (idx : Nat) (w : BCWriter) : BCWriter := writeOpU32 OP_GET idx w
def kvm_bc_get_local (idx : Nat) (w : BCWriter) : BCWriter := writeOpU32 OP_GET_LOCAL idx w
def kvm_bc_set (idx : Nat) (w : BCWriter) : BCWriter := writeOpU32 OP_SET idx w
def kvm_bc_syscall (argsCount : Nat) (w : BCWriter) : BCWriter := writeOpU32 OP_SYSCALL argsCount w
def kvm_bc_const (v : Nat) (w : BCWriter) : BCWriter := writeOpU32 OP_CONST32 v w

/-- `kvm_bc_const_float`: same layout as `kvm_bc_const`, the operand being
the f32 bit pattern of `value`. -/
def kvm_bc_const_float (bits : Nat) (w : BCWriter) : BCWriter :=
  if w.capacity < 8 then w else { w with buf := w.buf ++ [OP_CONST32, bits] }

/-- `kvm_bc_const64`: opcode plus a `kvm_u64` operand (12 bytes), stored as
two 32-bit words, low word first (little endian). -/
def kvm_bc_const64 (v : Nat) (w : BCWriter) : BCWriter :=
  if w.capacity < 12 then w
  else { w with buf := w.buf ++ [OP_CONST64, v % U32MOD, v / U32MOD % U32MOD] }

/-- `kvm_bc_create_label`. -/
def kvm_bc_create_label (w : BCWriter) : BCWriter :=
  { w with labels := w.labels.set w.labelsCount KVM_INVALID_LABEL,
           labelsCount := w.labelsCount + 1 }

/-- `kvm_bc_place_label`: record the current write-cursor offset
(`writer->ip - writer->bytecode`, in words here) as the label's target. -/
def kvm_bc_place_label (label : Nat) (w : BCWriter) : BCWriter :=
  { w with labels := w.labels.set label w.buf.length }

/-- `kvm_bc_end_write` (the finalize pass): re-decode the written stream and
overwrite every `JMP`/`CALL` label-id operand with `labels[label]`. -/
def patchBC (labels : List Nat) : List Nat → List Nat
  | [] => []
  | op :: rest =>
    if op = OP_JMP ∨ op = OP_CALL then
      match rest with
      | [] => [op]
      | lab :: rest2 => op :: labels.getD lab 0 :: patchBC labels rest2
    else if op = OP_CONST64 then
      op :: rest.take 2 ++ patchBC labels (rest.drop 2)
    else if op = OP_SYSCALL ∨ op = OP_GET_LOCAL ∨ op = OP_GET ∨ op = OP_SET ∨ op = OP_CONST32 then
      op :: rest.take 1 ++ patchBC labels (rest.drop 1)
    else
      op :: patchBC labels rest
  termination_by l => l.length
  decreasing_by
    all_goals simp_all [List.length_drop]
    all_goals omega

/-- `kvm_bc_end_write` applied to a writer. -/
def bcEndWrite (w : BCWriter) : BCWriter :=
  { w with buf := patchBC w.labels w.buf }

/-! ### Writer call sequences

A `BCmd` is one call of the writer API; `runCmds` plays a sequence of such
calls on a writer, exactly as a C client would. -/

inductive BCmd where
  | cEnd | cPop | cAdd | cAddf | cMul | cMulf | cRet
  | cEq | cNeq | cGt | cGtf | cLt | cLtf
  | cJmp (label : Nat) | cCall (label : Nat)
  | cGet (idx : Nat) | cGetLocal (idx : Nat) | cSet (idx : Nat)
  | cSyscall (n : Nat) | cConst (v : Nat) | cConstFloat (bits : Nat) | cConst64 (v : Nat)
  | cCreateLabel | cPlaceLabel (label : Nat)
  deriving DecidableEq, Repr

def runCmd (w : BCWriter) : BCmd → BCWriter
  | .cEnd => kvm_bc_end w
  | .cPop => kvm_bc_pop w
  | .cAdd => kvm_bc_add w
  | .cAddf => kvm_bc_addf w
  | .cMul => kvm_bc_mul w
  | .cMulf => kvm_bc_mulf w
  | .cRet => kvm_bc_ret w
  | .cEq => kvm_bc_eq w
  | .cNeq => kvm_bc_neq w
  | .cGt => kvm_bc_gt w
  | .cGtf => kvm_bc_gtf w
  | .cLt => kvm_bc_lt w
  | .cLtf => kvm_bc_ltf w
  | .cJmp l => kvm_bc_jmp l w
  | .cCall l => kvm_bc_call l w
  | .cGet i => kvm_bc_get i w
  | .cGetLocal i => kvm_bc_get_local i w
  | .cSet i => kvm_bc_set i w
  | .cSyscall n => kvm_bc_syscall n w
  | .cConst v => kvm_bc_const v w
  | .cConstFloat b => kvm_bc_const_float b w
  | .cConst64 v => kvm_bc_const64 v w
  | .cCreateLabel => kvm_bc_create_label w
  | .cPlaceLabel l => kvm_bc_place_label l w

def runCmds (w : BCWriter) (cmds : List BCmd) : BCWriter :=
  cmds.foldl runCmd w

/-- The words a command appends when nothing is dropped. -/
def encCmd : BCmd → List Nat
  | .cEnd => [OP_END]
  | .cPop => [OP_POP]
  | .cAdd => [OP_ADD]
  | .cAddf => [OP_ADDF]
  | .cMul => [OP_MUL]
  | .cMulf => [OP_MULF]
  | .cRet => [OP_RET]
  | .cEq => [OP_EQ]
  | .cNeq => [OP_NEQ]
  | .cGt => [OP_GT]
  | .cGtf => [OP_GTF]
  | .cLt => [OP_LT]
  | .cLtf => [OP_LTF]
  | .cJmp l => [OP_JMP, l]
  | .cCall l => [OP_CALL, l]
  | .cGet i => [OP_GET, i]
  | .cGetLocal i => [OP_GET_LOCAL, i]
  | .cSet i => [OP_SET, i]
  | .cSyscall n => [OP_SYSCALL, n]
  | .cConst v => [OP_CONST32, v]
  | .cConstFloat b => [OP_CONST32, b]
  | .cConst64 v => [OP_CONST64, v % U32MOD, v / U32MOD % U32MOD]
  | .cCreateLabel => []
  | .cPlaceLabel _ => []

def encCmds (cmds : List BCmd) : List Nat := cmds.flatMap encCmd

/-- The byte size the writer checks a command against (0 for label calls). -/
def cmdSize : BCmd → Nat
  | .cJmp _ | .cCall _ | .cGet _ | .cGetLocal _ | .cSet _
  | .cSyscall _ | .cConst _ | .cConstFloat _ => 8
  | .cConst64 _ => 12
  | .cCreateLabel | .cPlaceLabel _ => 0
  | _ => 4

/-- Total byte size of a command sequence. -/
def bcSize (cmds : List BCmd) : Nat := (cmds.map cmdSize).sum

/-- Number of `create_label` calls in a sequence. -/
def countCreates (cmds : List BCmd) : Nat :=
  cmds.countP (fun c => c = BCmd.cCreateLabel)

/-! ### The virtual machine (`KVM`, `kvm_call` of kvm.c)

`kvm_call` keeps a local copy `sp` of the stack pointer and mutates
`vm->stack` in place; `vm->sp` is written only by the syscall case.  A step
of the interpreter therefore acts on `(ip, sp, vm)` where `ip` and `sp` are
the local variables of `kvm_call` and `vm` is the externally visible
struct. -/

structure KVM where
  stack : Nat → Nat
  sp : Nat
  env : Nat → Nat

/-- Abstract bit-pattern float operations (`*(float*)` arithmetic of the
source); no claim depends on IEEE semantics. -/
structure FloatOps where
  fadd : Nat → Nat → Nat
  fmul : Nat → Nat → Nat
  fgt : Nat → Nat → Bool
  flt : Nat → Nat → Bool

/-- A syscall callback (`kvm_syscall`): receives the vm and the declared
argument count and may mutate stack, stack pointer and environment. -/
def Syscall := KVM → Nat → KVM

inductive StepRes where
  /-- `KVM_OP_END` was executed: `finished = true`, carrying the final local
  `sp` and vm. -/
  | halt (sp : Nat) (vm : KVM)
  /-- execution continues at `ip` with local stack pointer `sp`; `sysEv` is
  `some s` when the step was a syscall that left `vm->sp = s`. -/
  | cont (ip sp : Nat) (vm : KVM) (sysEv : Option Nat)

/-- One iteration of the `while (!finished)` loop of `kvm_call`.  `ip` and
all code offsets are in 32-bit words (4 source bytes); out-of-range reads of
the bytecode (undefined behavior in C) are modelled as reading 0. -/
def kvmStep (fo : FloatOps) (sys : Syscall) (bc : List Nat) (ip sp : Nat) (vm : KVM) : StepRes :=
  let op := bc.getD ip 0
  let ip := ip + 1
  match op with
  | 0 => -- KVM_OP_END
    .halt sp vm
  | 1 => -- KVM_OP_SYSCALL
    let argCount := bc.getD ip 0
    let vm := { vm with sp := sp }
    let vm := sys vm argCount
    let sp := vm.sp
    let sp := usub sp (umod (argCount * 4))
    .cont (ip + 1) sp vm (some vm.sp)
  | 2 => -- KVM_OP_CONST32
    .cont (ip + 1) (uadd sp 1) { vm with stack := updFn vm.stack sp (bc.getD ip 0) } none
  | 3 => -- KVM_OP_CONST64
    let stack := updFn vm.stack sp (bc.getD ip 0)
    let stack := updFn stack (uadd sp 1) (bc.getD (ip + 1) 0)
    .cont (ip + 2) (uadd sp 2) { vm with stack := stack } none
  | 4 => -- KVM_OP_POP
    .cont ip (usub sp 1) vm none
  | 5 => -- KVM_OP_EQ
    let sp := usub sp 2
    .cont (if vm.stack sp = vm.stack (uadd sp 1) then ip + 2 else ip) sp vm none
  | 6 => -- KVM_OP_NEQ
    let sp := usub sp 2
    .cont (if vm.stack sp ≠ vm.stack (uadd sp 1) then ip + 2 else ip) sp vm none
  | 7 => -- KVM_OP_LT
    let sp := usub sp 2
    .cont (if vm.stack sp < vm.stack (uadd sp 1) then ip + 2 else ip) sp vm none
  | 8 => -- KVM_OP_LTF (no stack-pointer adjustment in the source)
    .cont (if fo.flt (vm.stack sp) (vm.stack (uadd sp 1)) then ip + 2 else ip) sp vm none
  | 9 => -- KVM_OP_GT
    let sp := usub sp 2
    .cont (if vm.stack (uadd sp 1) < vm.stack sp then ip + 2 else ip) sp vm none
  | 10 => -- KVM_OP_GTF
    let sp := usub sp 2
    .cont (if fo.fgt (vm.stack sp) (vm.stack (uadd sp 1)) then ip + 2 else ip) sp vm none
  | 11 => -- KVM_OP_ADD
    let sp := usub sp 1
    .cont ip sp { vm with stack := updFn vm.stack (usub sp 1) (umod (vm.stack (usub sp 1) + vm.stack sp)) } none
  | 12 => -- KVM_OP_ADDF
    let sp := usub sp 1
    .cont ip sp { vm with stack := updFn vm.stack (usub sp 1) (fo.fadd (vm.stack (usub sp 1)) (vm.stack sp)) } none
  | 13 => -- KVM_OP_MUL
    let sp := usub sp 1
    .cont ip sp { vm with stack := updFn vm.stack (usub sp 1) (umod (vm.stack (usub sp 1) * vm.stack sp)) } none
  | 14 => -- KVM_OP_MULF
    let sp := usub sp 1
    .cont ip sp { vm with stack := updFn vm.stack (usub sp 1) (fo.fmul (vm.stack (usub sp 1)) (vm.stack sp)) } none
  | 15 => -- KVM_OP_JMP
    .cont (bc.getD ip 0) sp vm none
  | 16 => -- KVM_OP_RET
    let sp := usub sp 1
    let addr := vm.stack sp
    .cont addr sp vm none
  | 17 => -- KVM_OP_CALL
    let funcAddr := bc.getD ip 0
    let retAddr := ip + 1
    .cont funcAddr (uadd sp 1) { vm with stack := updFn vm.stack sp retAddr } none
  | 18 => -- KVM_OP_GET_LOCAL
    let idx := bc.getD ip 0
    .cont (ip + 1) (uadd sp 1) { vm with stack := updFn vm.stack sp (vm.stack idx) } none
  | 19 => -- KVM_OP_GET
    let idx := bc.getD ip 0
    .cont (ip + 1) (uadd sp 1) { vm with stack := updFn vm.stack sp (vm.env idx) } none
  | 20 => -- KVM_OP_SET
    let idx := bc.getD ip 0
    let sp := usub sp 1
    let v := vm.stack sp
    .cont (ip + 1) sp { vm with env := updFn vm.env idx v } none
  | _ => -- a value outside the enum matches no case of the switch
    .cont ip sp vm none

/-- Run the loop of `kvm_call` with fuel (the source has no step budget and
can loop forever; `none` = fuel exhausted).  The accumulator `lastSys`
remembers the `vm->sp` value left by the most recent syscall, for stating
frame-effect properties; it does not influence execution. -/
def kvmRun (fo : FloatOps) (sys : Syscall) (bc : List Nat) :
    Nat → Nat → Nat → KVM → Option Nat → Option (Nat × KVM × Option Nat)
  | 0, _, _, _, _ => none
  | fuel + 1, ip, sp, vm, lastSys =>
    match kvmStep fo sys bc ip sp vm with
    | .halt sp vm => some (sp, vm, lastSys)
    | .cont ip sp vm ev => kvmRun fo sys bc fuel ip sp vm (match ev with | some s => some s | none => lastSys)

/-- `kvm_call`: start at `label` with the local `sp` initialised from
`vm->sp`; nothing is written back to `vm->sp` on return. -/
def kvmCall (fo : FloatOps) (sys : Syscall) (bc : List Nat) (label : Nat) (vm : KVM)
    (fuel : Nat) : Option (Nat × KVM × Option Nat) :=
  kvmRun fo sys bc fuel label vm.sp vm none

/-! ### Graph data model (visual_script_plugins.cpp)

A `NodeEditorLink` packs (node id | pin << 16 | direction flag) into each of
its two `u32` endpoints; node ids live in the low 15 bits (`& 0x7fff`), the
output-flag in bit 15, the pin index above bit 16.  `ScriptValueType` and
`Node::Type` are kept as their `u32` enum ordinals.  A `ComponentType` is
identified with its reflection name (the host registry's
`getComponentType(name)` is a stable bijection between names and types). -/

def SVT_U32 : Nat := 0
def SVT_I32 : Nat := 1
def SVT_FLOAT : Nat := 2
def SVT_ENTITY : Nat := 3

/-- Node type tags, in the order of `enum class Node::Type`. -/
def NT_ADD : Nat := 0
def NT_SEQUENCE : Nat := 1
def NT_SELF : Nat := 2
def NT_SET_YAW : Nat := 3
def NT_CONST : Nat := 4
def NT_MOUSE_MOVE : Nat := 5
def NT_UPDATE : Nat := 6
def NT_GET_VARIABLE : Nat := 7
def NT_SET_VARIABLE : Nat := 8
def NT_SET_PROPERTY : Nat := 9
def NT_MUL : Nat := 10
def NT_CALL : Nat := 11
def NT_VEC3 : Nat := 12
def NT_YAW_TO_DIR : Nat := 13
def NT_START : Nat := 14
def NT_IF : Nat := 15
def NT_EQ : Nat := 16
def NT_NEQ : Nat := 17
def NT_GT : Nat := 18
def NT_LT : Nat := 19
def NT_GTE : Nat := 20
def NT_LTE : Nat := 21
def NT_KEY_INPUT : Nat := 22
def NT_GET_PROPERTY : Nat := 23
def NT_SWITCH : Nat := 24

/-- The node-kind-specific parameters of each `Node` subclass.  Float
parameters (`ConstNode::m_value`) are carried as f32 bit patterns;
`CallNode`'s `component`/`function` pointers are carried as the reflection
names they point at (`none` = null pointer). -/
inductive NodeData where
  | add
  | seq
  | self
  | setYaw
  | const (value : Nat)
  | mouseMove
  | update
  | getVar (var : Nat)
  | setVar (var : Nat)
  | setProp (prop value cmp : String)
  | mul
  | call (component : Option String) (function : Option String)
  | vec3
  | yawToDir
  | start
  | ifNode
  | eqNode
  | neqNode
  | gtNode
  | ltNode
  | gteNode
  | lteNode
  | keyInput
  | getProp (prop : String) (cmp : String)
  | switchNode (isOn : Bool)
  deriving DecidableEq, Repr

/-- `Node::getType`. -/
def nodeType : NodeData → Nat
  | .add => NT_ADD
  | .seq => NT_SEQUENCE
  | .self => NT_SELF
  | .setYaw => NT_SET_YAW
  | .const _ => NT_CONST
  | .mouseMove => NT_MOUSE_MOVE
  | .update => NT_UPDATE
  | .getVar _ => NT_GET_VARIABLE
  | .setVar _ => NT_SET_VARIABLE
  | .setProp _ _ _ => NT_SET_PROPERTY
  | .mul => NT_MUL
  | .call _ _ => NT_CALL
  | .vec3 => NT_VEC3
  | .yawToDir => NT_YAW_TO_DIR
  | .start => NT_START
  | .ifNode => NT_IF
  | .eqNode => NT_EQ
  | .neqNode => NT_NEQ
  | .gtNode => NT_GT
  | .ltNode => NT_LT
  | .gteNode => NT_GTE
  | .lteNode => NT_LTE
  | .keyInput => NT_KEY_INPUT
  | .getProp _ _ => NT_GET_PROPERTY
  | .switchNode _ => NT_SWITCH

/-- A node: id (`NodeEditorNode::m_id`, u16), editor position
(`m_pos`, two f32 bit patterns) and kind-specific data. -/
structure GNode where
  id : Nat
  pos : Nat × Nat
  data : NodeData
  deriving DecidableEq, Repr

/-- A `NodeEditorLink`: `src` is the `from` endpoint, `dst` the `to`
endpoint, both in the packed pin encoding. -/
structure GLink where
  src : Nat
  dst : Nat
  deriving DecidableEq, Repr

/-- The `Graph`: nodes, links, variable table (name, `ScriptValueType`
ordinal) and the monotone node-id counter. -/
structure Graph where
  m_nodes : List GNode
  m_links : List GLink
  m_variables : List (String × Nat)
  node_counter_ : Nat
  deriving DecidableEq, Repr

/-- External host context: the engine's `RuntimeHash`, the reflection
registry (component name → its function names), `getPropertyHash` and the
CRT's `atof` (as f32 bits), all opaque collaborators of this plugin. -/
structure HostCtx where
  runtimeHash : String → Nat
  components : List (String × List String)
  propHash : String → String → Nat
  atofBits : String → Nat

/-- `Graph::getNode`: linear scan by id. -/
def getNode (g : Graph) (id : Nat) : Option GNode :=
  g.m_nodes.find? (fun n => n.id == id)

/-- `Node::getOutputNode` (flow-successor query): the first link in the
link table whose `from` endpoint is (this node, output pin `idx`); the
consuming node and its input pin index.  A hit whose destination node id
has no live node (null `getNode`) behaves as "unconnected" for every
caller, and is collapsed to `none` here. -/
def getOutputNode (g : Graph) (selfId idx : Nat) : Option (GNode × Nat) :=
  match g.m_links.find? (fun l => l.src &&& 0x7fff == selfId && l.src >>> 16 == idx) with
  | none => none
  | some l => (getNode g (l.dst &&& 0x7fff)).map (fun n => (n, l.dst >>> 16))

/-- `Node::getInputNode` (data-input query): the first link whose `to`
endpoint equals `m_id | (idx << 16)`; the producing node and its output pin
index.  Null-node hits collapse to `none` as above. -/
def getInputNode (g : Graph) (selfId idx : Nat) : Option (GNode × Nat) :=
  match g.m_links.find? (fun l => l.dst == selfId ||| (idx <<< 16)) with
  | none => none
  | some l => (getNode g (l.src &&& 0x7fff)).map (fun n => (n, l.src >>> 16))

/-! ### Graph (de)serialization

The persisted stream (`OutputMemoryStream` / `InputMemoryStream`) is
modelled as a list of typed tokens; each token stands for the raw bytes the
source writes for one `write`/`writeString` call, and each read expects the
token the matching `read` would consume. -/

inductive Tok where
  | tU32 (n : Nat)
  | tU16 (n : Nat)
  | tF32 (bits : Nat)
  | tBool (b : Bool)
  | tStr (s : String)
  | tVec2 (x y : Nat)
  | tLink (src dst : Nat)
  | tHash (h : Nat)
  deriving DecidableEq, Repr

/-- `Graph::MAGIC = '_LVS'`. -/
def LVS_MAGIC : Nat := 0x5F4C5653

/-- Per-kind payload written by `Node::serialize` overrides.  Kinds without
an override write nothing — in particular `GetVariableNode` and
`SetVariableNode` do not persist `m_var`. -/
def nodeSerialize (h : HostCtx) : NodeData → List Tok
  | .const v => [.tF32 v]
  | .switchNode b => [.tBool b]
  | .call c f => [.tHash (h.runtimeHash (c.getD "")), .tStr (f.getD "")]
  | .getProp prop cmp => [.tStr prop, .tStr cmp]
  | .setProp prop value cmp => [.tStr prop, .tStr value, .tStr cmp]
  | _ => []

/-- `Graph::serialize`. -/
def graphSerialize (h : HostCtx) (g : Graph) : List Tok :=
  [.tU32 LVS_MAGIC, .tU32 0, .tU32 g.node_counter_, .tU32 g.m_variables.length]
  ++ g.m_variables.flatMap (fun v => [.tStr v.1, .tU32 v.2])
  ++ [.tU32 g.m_links.length]
  ++ g.m_links.map (fun l => .tLink l.src l.dst)
  ++ [.tU32 g.m_nodes.length]
  ++ g.m_nodes.flatMap (fun n =>
      .tU32 (nodeType n.data) :: .tU16 (n.id % 65536) :: .tVec2 n.pos.1 n.pos.2
        :: nodeSerialize h n.data)

def readU32 : List Tok → Option (Nat × List Tok)
  | .tU32 n :: r => some (n, r)
  | _ => none

def readU16 : List Tok → Option (Nat × List Tok)
  | .tU16 n :: r => some (n, r)
  | _ => none

def readF32 : List Tok → Option (Nat × List Tok)
  | .tF32 n :: r => some (n, r)
  | _ => none

def readBool : List Tok → Option (Bool × List Tok)
  | .tBool b :: r => some (b, r)
  | _ => none

def readStr : List Tok → Option (String × List Tok)
  | .tStr s :: r => some (s, r)
  | _ => none

def readVec2 : List Tok → Option ((Nat × Nat) × List Tok)
  | .tVec2 x y :: r => some ((x, y), r)
  | _ => none

def readLink : List Tok → Option (GLink × List Tok)
  | .tLink s d :: r => some (⟨s, d⟩, r)
  | _ => none

def readHash : List Tok → Option (Nat × List Tok)
  | .tHash h :: r => some (h, r)
  | _ => none

/-- `Graph::createNode`: a default-constructed node of the given type tag
(`nullptr`, hence `none`, for a tag outside the enum). -/
def createNodeData : Nat → Option NodeData
  | 0 => some .add
  | 1 => some .seq
  | 2 => some .self
  | 3 => some .setYaw
  | 4 => some (.const 0)
  | 5 => some .mouseMove
  | 6 => some .update
  | 7 => some (.getVar 0)
  | 8 => some (.setVar 0)
  | 9 => some (.setProp "" "" "")
  | 10 => some .mul
  | 11 => some (.call none none)
  | 12 => some .vec3
  | 13 => some .yawToDir
  | 14 => some .start
  | 15 => some .ifNode
  | 16 => some .eqNode
  | 17 => some .neqNode
  | 18 => some .gtNode
  | 19 => some .ltNode
  | 20 => some .gteNode
  | 21 => some .lteNode
  | 22 => some .keyInput
  | 23 => some (.getProp "" "")
  | 24 => some (.switchNode true)
  | _ => none

/-- Per-kind `Node::deserialize` override, applied to the freshly created
default node.  `CallNode` resolves its component through the reflection
registry (`getComponentTypeFromHash` + function lookup by name); a failed
lookup only logs and leaves the corresponding pointer null.  Kinds without
an override — `GetVariableNode`/`SetVariableNode` included — read nothing. -/
def nodeDeserialize (h : HostCtx) (d : NodeData) (toks : List Tok) :
    Option (NodeData × List Tok) :=
  match d with
  | .const _ => (readF32 toks).map (fun p => (.const p.1, p.2))
  | .switchNode _ => (readBool toks).map (fun p => (.switchNode p.1, p.2))
  | .call _ _ =>
    match readHash toks with
    | none => none
    | some (hv, toks) =>
      match readStr toks with
      | none => none
      | some (fname, toks) =>
        match h.components.find? (fun c => h.runtimeHash c.1 == hv) with
        | none => some (.call none none, toks)
        | some (cname, funcs) =>
          if funcs.contains fname then some (.call (some cname) (some fname), toks)
          else some (.call (some cname) none, toks)
  | .getProp _ _ =>
    match readStr toks with
    | none => none
    | some (prop, toks) =>
      match readStr toks with
      | none => none
      | some (cmp, toks) => some (.getProp prop cmp, toks)
  | .setProp _ _ _ =>
    match readStr toks with
    | none => none
    | some (prop, toks) =>
      match readStr toks with
      | none => none
      | some (value, toks) =>
        match readStr toks with
        | none => none
        | some (cmp, toks) => some (.setProp prop value cmp, toks)
  | other => some (other, toks)

def readVariables (h : HostCtx) : Nat → List Tok → List (String × Nat) →
    Option (List (String × Nat) × List Tok)
  | 0, toks, acc => some (acc, toks)
  | n + 1, toks, acc =>
    match readStr toks with
    | none => none
    | some (name, toks) =>
      match readU32 toks with
      | none => none
      | some (ty, toks) => readVariables h n toks (acc ++ [(name, ty)])

def readLinks : Nat → List Tok → List GLink → Option (List GLink × List Tok)
  | 0, toks, acc => some (acc, toks)
  | n + 1, toks, acc =>
    match readLink toks with
    | none => none
    | some (l, toks) => readLinks n toks (acc ++ [l])

def readNodes (h : HostCtx) : Nat → List Tok → List GNode →
    Option (List GNode × List Tok)
  | 0, toks, acc => some (acc, toks)
  | n + 1, toks, acc =>
    match readU32 toks with
    | none => none
    | some (ty, toks) =>
      match createNodeData ty with
      | none => none
      | some d =>
        match readU16 toks with
        | none => none
        | some (id, toks) =>
          match readVec2 toks with
          | none => none
          | some (pos, toks) =>
            match nodeDeserialize h d toks with
            | none => none
            | some (d, toks) => readNodes h n toks (acc ++ [⟨id, pos, d⟩])

/-- `Graph::deserialize`.  Bad magic or version reports failure; every node
is created through `createNode` (which also advances the node-id counter by
one per node, as `addNode` does) and then overwritten from the stream. -/
def graphDeserialize (h : HostCtx) (toks : List Tok) : Option Graph :=
  match readU32 toks with
  | none => none
  | some (magic, toks) =>
    if magic ≠ LVS_MAGIC then none
    else match readU32 toks with
    | none => none
    | some (version, toks) =>
      if version ≠ 0 then none
      else match readU32 toks with
      | none => none
      | some (counter, toks) =>
        match readU32 toks with
        | none => none
        | some (varCount, toks) =>
          match readVariables h varCount toks [] with
          | none => none
          | some (vars, toks) =>
            match readU32 toks with
            | none => none
            | some (linkCount, toks) =>
              match readLinks linkCount toks [] with
              | none => none
              | some (links, toks) =>
                match readU32 toks with
                | none => none
                | some (nodeCount, toks) =>
                  match readNodes h nodeCount toks [] with
                  | none => none
                  | some (nodes, _) =>
                    some ⟨nodes, links, vars, counter + nodeCount⟩

/-! ### Code generation (WASM backend of `Graph::generate`)

The compile output blob is modelled as a list of bytes.  Strings in it are
ASCII (export/import names), written as their character codes. -/

/-- `writeLEB128` of visual_script_plugins.cpp (including its signed-style
end condition on a `u64` value; the source carries a
"TODO check if negative numbers are correctly handled" comment). -/
def writeLEB128 (val : Nat) : List Nat :=
  if (val / 128 == 0 && (val % 128) &&& 0x40 == 0)
      || (val / 128 == 18446744073709551615 && (val % 128) &&& 0x40 != 0) then
    [val % 128]
  else
    ((val % 128) ||| 0x80) :: writeLEB128 (val / 128)
  termination_by val
  decreasing_by
    rename_i h
    rcases Nat.eq_zero_or_pos val with hv | hv
    · subst hv
      exact absurd (by decide) h
    · exact Nat.div_lt_self hv (by omega)

/-- Little-endian bytes of a 32-bit value (`blob.write` of a `u32`/f32). -/
def le32 (n : Nat) : List Nat :=
  [n % 256, n / 256 % 256, n / 65536 % 256, n / 16777216 % 256]

/-- Little-endian bytes of a 64-bit value. -/
def le64 (n : Nat) : List Nat := le32 (n % U32MOD) ++ le32 (n / U32MOD)

/-- Bytes of an ASCII string (`blob.write(value, stringLength(value))`). -/
def strBytes (s : String) : List Nat := s.data.map Char.toNat

/-- `WASMWriter::writeString`: LEB length prefix then the raw bytes. -/
def wasmWriteString (s : String) : List Nat :=
  writeLEB128 (strBytes s).length ++ strBytes s

/-! WASM opcode / type bytes (`WasmOp`, `WASMType`, `WASMSection`,
`WASMExternalType` enums). -/

def WASM_END : Nat := 0x0B
def WASM_CALL : Nat := 0x10
def WASM_LOCAL_GET : Nat := 0x20
def WASM_GLOBAL_GET : Nat := 0x23
def WASM_GLOBAL_SET : Nat := 0x24
def WASM_I32_CONST : Nat := 0x41
def WASM_I64_CONST : Nat := 0x42
def WASM_F32_CONST : Nat := 0x43
def WASM_F64_CONST : Nat := 0x44
def WASM_I32_ADD : Nat := 0x6A
def WASM_I32_MUL : Nat := 0x6C
def WASM_F32_ADD : Nat := 0x92
def WASM_F32_MUL : Nat := 0x94

def WT_F64 : Nat := 0x7C
def WT_F32 : Nat := 0x7D
def WT_I64 : Nat := 0x7E
def WT_I32 : Nat := 0x7F
def WT_VOID : Nat := 0xFF

/-- `WASMLumixAPI` import indices. -/
def API_SET_YAW : Nat := 0
def API_SET_PROPERTY_FLOAT : Nat := 1
def API_GET_PROPERTY_FLOAT : Nat := 2

/-- `WASMGlobals::SELF` and the first user-variable global slot. -/
def GLOBAL_SELF : Nat := 0
def GLOBAL_USER : Nat := 1

/-- The per-node compile diagnostics (`Node::m_error`), id → message. -/
def Errs := Nat → String

/-- `m_error = msg` on node `id`. -/
def setErr (e : Errs) (id : Nat) (msg : String) : Errs :=
  fun j => if j = id then msg else e j

/-- `Node::clearError` applied to every node by `Graph::generate`. -/
def clearedErrs : Errs := fun _ => ""

/-- `Node::getOutputType` (`valueType`): derived from whichever node feeds
the first operand, with fuel standing in for the source's unguarded
recursion (a data-flow cycle would not terminate in the source). -/
def getOutputType (g : Graph) : Nat → GNode → Nat → Nat
  | 0, _, _ => SVT_U32
  | fuel + 1, n, _idx =>
    match n.data with
    | .add | .mul | .eqNode | .neqNode | .gtNode | .ltNode | .gteNode | .lteNode =>
      match getInputNode g n.id 0 with
      | some (n0, oidx) => getOutputType g fuel n0 oidx
      | none => SVT_U32
    | .self => SVT_ENTITY
    | .keyInput => SVT_U32
    | .mouseMove => SVT_FLOAT
    | .update => SVT_FLOAT
    | .getProp _ _ => SVT_FLOAT
    | .getVar v => ((g.m_variables.getD v ("", SVT_U32)).2)
    | _ => SVT_U32

/-- `Node::generateNext` (also the inline entry-node pattern
`NodeInput o = getOutputNode(0, graph); if (o.node) o.node->generate(...)`):
follow flow output 0, if connected; `gen` is the `generate` virtual call. -/
def genNextWith (g : Graph) (gen : GNode → Nat → Errs → List Nat × Errs)
    (n : GNode) (errs : Errs) : List Nat × Errs :=
  match getOutputNode g n.id 0 with
  | none => ([], errs)
  | some (m, iidx) => gen m iidx errs

/-- `SequenceNode::generate`'s `for (u32 i = 0; ; ++i)` loop.  The loop
ends at the first unconnected pin; since each link can serve at most one
pin index, that index is at most `m_links.length`, so a loop budget of
`m_links.length + 1` reproduces the unbounded source loop exactly. -/
def genSeqLoopWith (g : Graph) (gen : GNode → Nat → Errs → List Nat × Errs)
    (n : GNode) : Nat → Nat → Errs → List Nat × Errs
  | 0, _, errs => ([], errs)
  | lf + 1, i, errs =>
    match getOutputNode g n.id i with
    | none => ([], errs)
    | some (m, _) =>
      let r := gen m 0 errs
      let r2 := genSeqLoopWith g gen n lf (i + 1) r.2
      (r.1 ++ r2.1, r2.2)

/-- One level of `Node::generate(blob, graph, output_idx)`: the bytes the
node appends and the updated diagnostics, with `prev` standing for the
recursive `generate` calls on other nodes (one fuel level down) and
`tfuel` the fuel given to `getOutputType`.  `IfNode`, `CompareNode` and
`CallNode` emit nothing: their kvm emission bodies are compiled out
(`#if 0 // TODO`) in the source, only their input checks are active. -/
def genNodeStep (h : HostCtx) (g : Graph)
    (prev : GNode → Nat → Errs → List Nat × Errs) (tfuel : Nat)
    (n : GNode) (outputIdx : Nat) (errs : Errs) : List Nat × Errs :=
  match n.data with
  | .add =>
    match getInputNode g n.id 0, getInputNode g n.id 1 with
    | some (n0, i0), some (n1, i1) =>
      let r0 := prev n0 i0 errs
      let r1 := prev n1 i1 r0.2
      let opByte := if getOutputType g tfuel n0 i0 = SVT_FLOAT then WASM_F32_ADD else WASM_I32_ADD
      (r0.1 ++ r1.1 ++ [opByte], r1.2)
    | _, _ => ([], setErr errs n.id "Missing inputs")
  | .mul =>
    match getInputNode g n.id 0, getInputNode g n.id 1 with
    | some (n0, i0), some (n1, i1) =>
      let r0 := prev n0 i0 errs
      let r1 := prev n1 i1 r0.2
      let opByte := if getOutputType g tfuel n0 i0 = SVT_FLOAT then WASM_F32_MUL else WASM_I32_MUL
      (r0.1 ++ r1.1 ++ [opByte], r1.2)
    | _, _ => ([], setErr errs n.id "Missing inputs")
  | .ifNode =>
    match getOutputNode g n.id 0, getOutputNode g n.id 1 with
    | some _, some _ =>
      match getInputNode g n.id 1 with
      | some _ => ([], errs)
      | none => ([], setErr errs n.id "Missing condition")
    | _, _ => ([], setErr errs n.id "Missing outputs")
  | .seq => genSeqLoopWith g prev n (g.m_links.length + 1) 0 errs
  | .self => (WASM_GLOBAL_GET :: writeLEB128 GLOBAL_SELF, errs)
  | .setYaw =>
    match getInputNode g n.id 1, getInputNode g n.id 2 with
    | some (n1, i1), some (n2, i2) =>
      let r1 := prev n1 i1 errs
      let r2 := prev n2 i2 r1.2
      let r3 := genNextWith g prev n r2.2
      (r1.1 ++ r2.1 ++ WASM_CALL :: writeLEB128 API_SET_YAW ++ r3.1, r3.2)
    | _, _ => ([], setErr errs n.id "Missing inputs")
  | .const v => (WASM_F32_CONST :: le32 v, errs)
  | .switchNode isOn =>
    if isOn then
      match getOutputNode g n.id 0 with
      | none => ([], errs)
      | some (m, iidx) => prev m iidx errs
    else
      match getOutputNode g n.id 1 with
      | none => ([], errs)
      | some (m, iidx) => prev m iidx errs
  | .keyInput =>
    -- case 0 of the switch has no `break` and falls through into case 1
    if outputIdx = 0 then
      let r := genNextWith g prev n errs
      (0 :: r.1 ++ [WASM_END] ++ [WASM_LOCAL_GET, 0], r.2)
    else if outputIdx = 1 then ([WASM_LOCAL_GET, 0], errs)
    else ([], errs)
  | .mouseMove =>
    -- case 0 likewise falls through into case 1
    if outputIdx = 0 then
      let r := genNextWith g prev n errs
      (0 :: r.1 ++ [WASM_END] ++ [WASM_LOCAL_GET, 0], r.2)
    else if outputIdx = 1 then ([WASM_LOCAL_GET, 0], errs)
    else if outputIdx = 2 then ([WASM_LOCAL_GET, 1], errs)
    else ([], errs)
  | .start =>
    let r := genNextWith g prev n errs
    (0 :: r.1 ++ [WASM_END], r.2)
  | .update =>
    if outputIdx = 0 then
      let r := genNextWith g prev n errs
      (0 :: r.1 ++ [WASM_END], r.2)
    else
      ([WASM_LOCAL_GET, 0], errs)
  | .getVar v => (WASM_GLOBAL_GET :: writeLEB128 (v + GLOBAL_USER), errs)
  | .setVar v =>
    match getInputNode g n.id 1 with
    | none => ([], setErr errs n.id "Missing input")
    | some (m, iidx) =>
      let r := prev m iidx errs
      let r2 := genNextWith g prev n r.2
      (r.1 ++ WASM_GLOBAL_SET :: writeLEB128 (v + GLOBAL_USER) ++ r2.1, r2.2)
  | .getProp prop cmp =>
    match getInputNode g n.id 0 with
    | none => ([], setErr errs n.id "Missing entity input")
    | some (m, iidx) =>
      let r := prev m iidx errs
      (r.1 ++ WASM_I64_CONST :: writeLEB128 (h.propHash cmp prop)
           ++ WASM_CALL :: writeLEB128 API_GET_PROPERTY_FLOAT, r.2)
  | .setProp prop value cmp =>
    match getInputNode g n.id 1 with
    | none => ([], setErr errs n.id "Missing entity input")
    | some (m1, i1) =>
      let r1 := prev m1 i1 errs
      let rv :=
        match getInputNode g n.id 2 with
        | some (m2, i2) => prev m2 i2 r1.2
        | none => (WASM_F32_CONST :: le32 (h.atofBits value), r1.2)
      let r3 := genNextWith g prev n rv.2
      (r1.1 ++ WASM_I64_CONST :: writeLEB128 (h.propHash cmp prop)
           ++ rv.1 ++ WASM_CALL :: writeLEB128 API_SET_PROPERTY_FLOAT ++ r3.1, r3.2)
  | .call _ _ => ([], errs)
  | .eqNode | .neqNode | .gtNode | .ltNode | .gteNode | .lteNode => ([], errs)
  | .vec3 => ([], errs)
  | .yawToDir => ([], errs)

/-- `Node::generate` with fuel: each virtual-call level peels one unit. -/
def genNode (h : HostCtx) (g : Graph) : Nat → GNode → Nat → Errs → List Nat × Errs
  | 0 => fun _ _ errs => ([], errs)
  | fuel + 1 => genNodeStep h g (genNode h g fuel) fuel

/-! ### `WASMWriter` and `Graph::generate` -/

/-- A function export collected by `Graph::addExport`: name, the entry
node, the argument `WASMType` bytes. -/
structure WExport where
  name : String
  node : GNode
  args : List Nat
  deriving Repr

/-- A function import: module, field, return type, argument types. -/
structure WImport where
  moduleName : String
  fieldName : String
  retType : Nat
  args : List Nat
  deriving Repr

/-- A global: export name and `WASMType` byte. -/
structure WGlobal where
  exportName : String
  ty : Nat
  deriving Repr

/-- `Graph::addExport`: the first node of the given type, if any. -/
def firstOfType (g : Graph) (t : Nat) : Option GNode :=
  g.m_nodes.find? (fun n => nodeType n.data == t)

/-- The exports `Graph::generate` registers, in registration order
(update, onMouseMove, onKeyEvent, start), one per entry type present. -/
def graphExports (g : Graph) : List WExport :=
  ((firstOfType g NT_UPDATE).map (fun n => WExport.mk "update" n [WT_F32])).toList
  ++ ((firstOfType g NT_MOUSE_MOVE).map (fun n => WExport.mk "onMouseMove" n [WT_F32, WT_F32])).toList
  ++ ((firstOfType g NT_KEY_INPUT).map (fun n => WExport.mk "onKeyEvent" n [WT_I32])).toList
  ++ ((firstOfType g NT_START).map (fun n => WExport.mk "start" n [])).toList

/-- The fixed `LumixAPI` imports `Graph::generate` registers. -/
def graphImports : List WImport :=
  [⟨"LumixAPI", "setYaw", WT_VOID, [WT_I32, WT_F32]⟩,
   ⟨"LumixAPI", "setPropertyFloat", WT_VOID, [WT_I32, WT_I64, WT_F32]⟩,
   ⟨"LumixAPI", "getPropertyFloat", WT_F32, [WT_I32, WT_I64]⟩]

/-- The globals: `self`, then one per variable by scalar type (U32/I32 →
i32 global, FLOAT → f32 global; other types hit `ASSERT(false)` and add
nothing). -/
def graphGlobals (g : Graph) : List WGlobal :=
  ⟨"self", WT_I32⟩ :: g.m_variables.filterMap (fun v =>
    if v.2 = SVT_U32 ∨ v.2 = SVT_I32 then some ⟨v.1, WT_I32⟩
    else if v.2 = SVT_FLOAT then some ⟨v.1, WT_F32⟩
    else none)

/-- `WASMWriter::writeSection`: section id byte, LEB byte count, content. -/
def writeSection (id : Nat) (content : List Nat) : List Nat :=
  id :: writeLEB128 content.length ++ content

/-- The TYPE section content. -/
def typeSection (imports : List WImport) (exports : List WExport) : List Nat :=
  writeLEB128 (imports.length + exports.length)
  ++ imports.flatMap (fun i =>
      0x60 :: i.args.length :: i.args ++ [if i.retType = WT_VOID then 0 else 1])
  ++ exports.flatMap (fun e => 0x60 :: e.args.length :: e.args ++ [0])

/-- The IMPORT section content. -/
def importSection (imports : List WImport) : List Nat :=
  writeLEB128 imports.length
  ++ imports.enum.flatMap (fun p =>
      wasmWriteString p.2.moduleName ++ wasmWriteString p.2.fieldName
        ++ [0x00] ++ writeLEB128 p.1)

/-- The FUNCTION section content. -/
def functionSection (imports : List WImport) (exports : List WExport) : List Nat :=
  writeLEB128 exports.length
  ++ exports.enum.flatMap (fun p => writeLEB128 (imports.length + p.1))

/-- One global's initializer expression, per `WASMType`. -/
def globalInit (ty : Nat) : List Nat :=
  if ty = WT_I32 then [WASM_I32_CONST, 0]
  else if ty = WT_I64 then [WASM_I64_CONST, 0]
  else if ty = WT_F32 then WASM_F32_CONST :: le32 0
  else if ty = WT_F64 then WASM_F64_CONST :: le64 0
  else []

/-- The GLOBAL section content. -/
def globalSection (globals : List WGlobal) : List Nat :=
  writeLEB128 globals.length
  ++ globals.flatMap (fun gl => gl.ty :: 1 :: globalInit gl.ty ++ [WASM_END])

/-- The EXPORT section content. -/
def exportSection (imports : List WImport) (exports : List WExport)
    (globals : List WGlobal) : List Nat :=
  writeLEB128 (exports.length + globals.length)
  ++ exports.enum.flatMap (fun p =>
      wasmWriteString p.2.name ++ [0x00] ++ writeLEB128 (imports.length + p.1))
  ++ globals.enum.flatMap (fun p =>
      wasmWriteString p.2.exportName ++ [0x03] ++ writeLEB128 p.1)

/-- The CODE section content: each export's body is exactly its entry
node's generated chain, with the diagnostics threaded through. -/
def codeSection (h : HostCtx) (g : Graph) (fuel : Nat) (exports : List WExport)
    (errs : Errs) : List Nat × Errs :=
  let folded := exports.foldl
    (fun (acc : List Nat × Errs) e =>
      let r := genNode h g fuel e.node 0 acc.2
      (acc.1 ++ writeLEB128 r.1.length ++ r.1, r.2))
    ([], errs)
  (writeLEB128 exports.length ++ folded.1, folded.2)

/-- `ScriptResource::Header`: magic `'_scr'` and version 0. -/
def scrHeader : List Nat := le32 0x5F736372 ++ le32 0

/-- `WASMWriter::write`: wasm magic and version, then the TYPE, IMPORT,
FUNCTION, GLOBAL, EXPORT and CODE sections. -/
def wasmWrite (h : HostCtx) (g : Graph) (fuel : Nat) (errs : Errs) : List Nat × Errs :=
  let imports := graphImports
  let exports := graphExports g
  let globals := graphGlobals g
  let code := codeSection h g fuel exports errs
  (le32 0x6d736100 ++ le32 1
    ++ writeSection 1 (typeSection imports exports)
    ++ writeSection 2 (importSection imports)
    ++ writeSection 3 (functionSection imports exports)
    ++ writeSection 6 (globalSection globals)
    ++ writeSection 7 (exportSection imports exports globals)
    ++ writeSection 10 code.1, code.2)

/-- `Graph::generate`: clear every node's diagnostic, register the entry
exports, the host imports and the globals, write the resource header and
the wasm module.  It always produces a buffer (the header at least),
whatever diagnostics were recorded. -/
def graphGenerate (h : HostCtx) (g : Graph) (fuel : Nat) : List Nat × Errs :=
  let r := wasmWrite h g fuel clearedErrs
  (scrHeader ++ r.1, r.2)

/-! ## Claims

Concrete artifacts shared by several witnesses. -/

/-- Trivial float operations for concrete runs. -/
def fo0 : FloatOps := ⟨fun _ _ => 0, fun _ _ => 0, fun _ _ => false, fun _ _ => false⟩

/-- The identity syscall callback. -/
def sysId : Syscall := fun vm _ => vm

/-- A syscall callback that pushes a result, leaving `vm->sp = 5`. -/
def sysSet5 : Syscall := fun vm _ => { vm with sp := 5 }

/-- A concrete machine with `sp = 1`. -/
def kvm0 : KVM := ⟨fun _ => 0, 1, fun _ => 0⟩

/-- A trivial host context. -/
def hc0 : HostCtx := ⟨fun _ => 0, [], fun _ _ => 0, fun _ => 0⟩

/-- C3: a comparison opcode followed in the stream by an unconditional
jump (`cmp :: JMP :: tgt :: rest`, the comparison at word 0, the jump at
words 1–2, the next instruction at word 3) never installs the jump's
target `tgt` itself: it continues either at word 3 — past the whole jump
instruction, opcode and label operand — when the compared condition holds,
or at word 1 — falling through into the jump — when it does not.  This
holds for all six comparison opcodes (EQ, NEQ, LT, GT, LTF, GTF), each
with its own condition and stack effect. -/
theorem c3_compare_skips_following_jump (fo : FloatOps) (sys : Syscall)
    (tgt : Nat) (rest : List Nat) (sp : Nat) (vm : KVM) :
    kvmStep fo sys (OP_EQ :: OP_JMP :: tgt :: rest) 0 sp vm
      = .cont (if vm.stack (usub sp 2) = vm.stack (uadd (usub sp 2) 1) then 3 else 1)
          (usub sp 2) vm none
  ∧ kvmStep fo sys (OP_NEQ :: OP_JMP :: tgt :: rest) 0 sp vm
      = .cont (if vm.stack (usub sp 2) ≠ vm.stack (uadd (usub sp 2) 1) then 3 else 1)
          (usub sp 2) vm none
  ∧ kvmStep fo sys (OP_LT :: OP_JMP :: tgt :: rest) 0 sp vm
      = .cont (if vm.stack (usub sp 2) < vm.stack (uadd (usub sp 2) 1) then 3 else 1)
          (usub sp 2) vm none
  ∧ kvmStep fo sys (OP_GT :: OP_JMP :: tgt :: rest) 0 sp vm
      = .cont (if vm.stack (uadd (usub sp 2) 1) < vm.stack (usub sp 2) then 3 else 1)
          (usub sp 2) vm none
  ∧ kvmStep fo sys (OP_LTF :: OP_JMP :: tgt :: rest) 0 sp vm
      = .cont (if fo.flt (vm.stack sp) (vm.stack (uadd sp 1)) then 3 else 1) sp vm none
  ∧ kvmStep fo sys (OP_GTF :: OP_JMP :: tgt :: rest) 0 sp vm
      = .cont (if fo.fgt (vm.stack (usub sp 2)) (vm.stack (uadd (usub sp 2) 1)) then 3 else 1)
          (usub sp 2) vm none :=
  ⟨rfl, rfl, rfl, rfl, rfl, rfl⟩

/-- C9: the float comparisons are asymmetric in their stack effect: GTF
first decrements the stack pointer by two (its condition reads the two
popped slots), while LTF leaves the stack pointer untouched (its condition
reads the slots above the current top). -/
theorem c9_gtf_ltf_stack_asymmetry (fo : FloatOps) (sys : Syscall)
    (rest : List Nat) (sp : Nat) (vm : KVM) :
    kvmStep fo sys (OP_GTF :: rest) 0 sp vm
      = .cont (if fo.fgt (vm.stack (usub sp 2)) (vm.stack (uadd (usub sp 2) 1)) then 3 else 1)
          (usub sp 2) vm none
  ∧ kvmStep fo sys (OP_LTF :: rest) 0 sp vm
      = .cont (if fo.flt (vm.stack sp) (vm.stack (uadd sp 1)) then 3 else 1) sp vm none :=
  ⟨rfl, rfl⟩

/-- C4 (failing input): executing a syscall with declared argument count 1
from local stack pointer 1, with a callback that leaves the machine
unchanged, does not yield stack pointer `1 - 1 = 0` as the claim states:
the source subtracts `arg_count * sizeof(kvm_u32)` — four stack slots per
declared argument — so the `kvm_u32` stack pointer wraps to 2^32 − 3. -/
theorem c4_syscall_pops_four_slots_per_arg :
    kvmStep fo0 sysId [OP_SYSCALL, 1] 0 1 kvm0 = .cont 2 4294967293 kvm0 (some 1)
  ∧ (4294967293 : Nat) ≠ 1 - 1 :=
  ⟨rfl, by decide⟩

/-- C7 (failing input): a writer started with capacity 4 accepts two
4-byte `end` instructions — each per-call check only compares the fixed
instruction size against the total capacity, never against the space left
— so the second write is not dropped and the write cursor ends at byte
offset 8, past `bytecode + 4`. -/
theorem c7_writer_overruns_capacity :
    (kvm_bc_end (kvm_bc_end (bcStartWrite 4))).buf = [OP_END, OP_END]
  ∧ 4 * (kvm_bc_end (kvm_bc_end (bcStartWrite 4))).buf.length > (bcStartWrite 4).capacity :=
  ⟨rfl, by decide⟩

set_option maxHeartbeats 1000000 in
/-- Inside one step, `vm->sp` is written only by the syscall case: a halt
returns the vm unchanged, a non-syscall continuation preserves `vm.sp`, and
a syscall continuation leaves in `vm.sp` exactly the value it reports. -/
theorem kvmStep_sp_effect (fo : FloatOps) (sys : Syscall) (bc : List Nat)
    (ip sp : Nat) (vm : KVM) :
    (∀ sp2 vm2, kvmStep fo sys bc ip sp vm = .halt sp2 vm2 → vm2 = vm)
  ∧ (∀ ip2 sp2 vm2, kvmStep fo sys bc ip sp vm = .cont ip2 sp2 vm2 none → vm2.sp = vm.sp)
  ∧ (∀ ip2 sp2 vm2 s, kvmStep fo sys bc ip sp vm = .cont ip2 sp2 vm2 (some s) → vm2.sp = s) := by
  refine ⟨fun sp2 vm2 h => ?_, fun ip2 sp2 vm2 h => ?_, fun ip2 sp2 vm2 s h => ?_⟩
  all_goals
    simp only [kvmStep] at h
    repeat split at h
    all_goals simp_all
    all_goals obtain ⟨h1, h2, h3⟩ := h
    all_goals first
      | (subst h3; rfl)
      | (obtain ⟨h3a, h3b⟩ := h3
         subst h3a
         exact h3b)

/-- The invariant behind C10, over `kvmRun`: if the accumulated last
syscall value (when present) agrees with the current `vm.sp`, then on
termination the final `vm.sp` is the recorded value, or the initial one
when no syscall ever ran; and the record can only grow. -/
theorem kvmRun_sp_invariant (fo : FloatOps) (sys : Syscall) (bc : List Nat) :
    ∀ (fuel ip sp : Nat) (vm : KVM) (acc : Option Nat) (spf : Nat) (vmf : KVM)
      (last : Option Nat),
      (∀ s, acc = some s → vm.sp = s) →
      kvmRun fo sys bc fuel ip sp vm acc = some (spf, vmf, last) →
      vmf.sp = last.getD vm.sp ∧ (acc.isSome → last.isSome) := by
  intro fuel
  induction fuel with
  | zero => intro ip sp vm acc spf vmf last _ h; exact absurd h (by simp [kvmRun])
  | succ n ih =>
    intro ip sp vm acc spf vmf last hacc h
    rw [kvmRun] at h
    rcases hs : kvmStep fo sys bc ip sp vm with ⟨sp2, vm2⟩ | ⟨ip2, sp2, vm2, ev⟩
    · rw [hs] at h
      have hvm : vm2 = vm := (kvmStep_sp_effect fo sys bc ip sp vm).1 sp2 vm2 hs
      injection h with h2
      injection h2 with e1 h3
      injection h3 with e2 e3
      subst e2
      subst e3
      subst hvm
      refine ⟨?_, fun hs2 => hs2⟩
      cases hacc2 : acc with
      | none => rfl
      | some s => simpa using hacc s hacc2
    · rw [hs] at h
      cases ev with
      | none =>
        have hsp : vm2.sp = vm.sp := (kvmStep_sp_effect fo sys bc ip sp vm).2.1 ip2 sp2 vm2 hs
        have hres := ih ip2 sp2 vm2 acc spf vmf last
          (fun s hse => by rw [hsp]; exact hacc s hse) h
        refine ⟨?_, hres.2⟩
        rw [hres.1]
        cases last with
        | none => simp [hsp]
        | some s2 => rfl
      | some s =>
        have hsp : vm2.sp = s := (kvmStep_sp_effect fo sys bc ip sp vm).2.2 ip2 sp2 vm2 s hs
        have hres := ih ip2 sp2 vm2 (some s) spf vmf last
          (fun s2 hse => by cases hse; exact hsp) h
        have hls : last.isSome := hres.2 rfl
        refine ⟨?_, fun _ => hls⟩
        cases last with
        | none => exact absurd hls (by simp)
        | some s2 => simpa using hres.1

/-- C10: when `kvm_call` reaches the end instruction and returns, it does
not store its working stack pointer back into `vm->sp`: the externally
visible stack pointer after the call equals its value at entry when no
syscall instruction was executed (`last = none` in the instrumented run),
and otherwise equals the value the last executed syscall interaction left
in `vm->sp` (the callback's stack pointer; the subtraction of the popped
argument amount lives only in the local variable). -/
theorem c10_sp_never_written_back (fo : FloatOps) (sys : Syscall) (bc : List Nat)
    (label : Nat) (vm : KVM) (fuel spf : Nat) (vmf : KVM) (last : Option Nat)
    (h : kvmCall fo sys bc label vm fuel = some (spf, vmf, last)) :
    vmf.sp = last.getD vm.sp :=
  (kvmRun_sp_invariant fo sys bc fuel label vm.sp vm none spf vmf last
    (fun _ hse => by cases hse) h).1

/-- Witness for C10: a concrete program with one syscall whose callback
pushes a value (leaving `vm->sp = 5`); the call returns with the external
stack pointer equal to that value, not to the locally popped one. -/
theorem c10_witness :
    kvmCall fo0 sysSet5 [OP_SYSCALL, 0, OP_END] 0 kvm0 2
      = some (5, { kvm0 with sp := 5 }, some 5)
  ∧ ({ kvm0 with sp := 5 } : KVM).sp = (some 5).getD kvm0.sp :=
  ⟨rfl, c10_sp_never_written_back fo0 sysSet5 [OP_SYSCALL, 0, OP_END] 0 kvm0 2 5
    { kvm0 with sp := 5 } (some 5) rfl⟩

/-- A graph holding one `GetVariableNode` referring to variable 1, with a
two-entry variable table. -/
def gC1 : Graph :=
  ⟨[⟨1, (0, 0), .getVar 1⟩], [], [("a", SVT_U32), ("b", SVT_U32)], 1⟩

/-- C1 (failing input): round-tripping a graph whose `GetVariableNode`
refers to variable index 1 yields a node referring to variable index 0 —
`GetVariableNode`/`SetVariableNode` have no `serialize`/`deserialize`
override, so `m_var` is never persisted and resets to its default.  Links
and the variable table do round-trip; the claim's "node parameters are
identical" fails. -/
theorem c1_roundtrip_loses_variable_index :
    graphDeserialize hc0 (graphSerialize hc0 gC1)
      = some ⟨[⟨1, (0, 0), .getVar 0⟩], [], [("a", SVT_U32), ("b", SVT_U32)], 2⟩
  ∧ NodeData.getVar 0 ≠ NodeData.getVar 1 :=
  ⟨rfl, by decide⟩

/-- A graph with an `If` node (id 1) whose true flow output feeds node 2,
false flow output feeds node 3, and whose condition input is fed by a
constant node 4 — every required connection present. -/
def gC6 : Graph :=
  ⟨[⟨1, (0, 0), .ifNode⟩, ⟨2, (0, 0), .vec3⟩, ⟨3, (0, 0), .vec3⟩, ⟨4, (0, 0), .const 5⟩],
   [⟨32769, 2⟩, ⟨98305, 3⟩, ⟨32772, 65537⟩],
   [], 4⟩

/-- C6 (failing input): generating a fully connected `If` node emits no
bytes at all and records no diagnostic — the branch emission described by
the spec (condition, conditional-skip-jump, true chain, jump to join,
else placement, false chain, join placement) sits in an `#if 0 // TODO`
block in `IfNode::generate` and is compiled out; only the connection
checks run. -/
theorem c6_if_generate_emits_nothing :
    (genNode hc0 gC6 9 ⟨1, (0, 0), .ifNode⟩ 0 clearedErrs).1 = []
  ∧ (genNode hc0 gC6 9 ⟨1, (0, 0), .ifNode⟩ 0 clearedErrs).2 1 = "" :=
  ⟨rfl, rfl⟩

/-- A graph in which two links feed the same destination pin: both
constant nodes 1 and 2 feed input pin 0 of the add node 3
(`32769 = 1 | OUTPUT_FLAG`, `32770 = 2 | OUTPUT_FLAG`). -/
def gC8 : Graph :=
  ⟨[⟨1, (0, 0), .const 11⟩, ⟨2, (0, 0), .const 22⟩, ⟨3, (0, 0), .add⟩],
   [⟨32769, 3⟩, ⟨32770, 3⟩], [], 3⟩

/-- C8 (counterexample): with two links targeting (node 3, input 0),
`getInputNode` returns the producer of the FIRST matching link in scan
order (node 1), not of the last (node 2) as the claim states. -/
theorem c8_counterexample :
    getInputNode gC8 3 0 = some (⟨1, (0, 0), .const 11⟩, 0)
  ∧ getInputNode gC8 3 0 ≠ some (⟨2, (0, 0), .const 22⟩, 0) :=
  ⟨rfl, by decide⟩

/-- C8 (amended): when two or more links share the same destination
(node id, input pin), `getInputNode` resolves to the producing endpoint of
the first matching link in the link table's scan order (the engine's
`Array::find` is a forward linear scan). -/
theorem c8_first_matching_link (g : Graph) (selfId idx : Nat)
    (pre post : List GLink) (l : GLink)
    (hsplit : g.m_links = pre ++ l :: post)
    (hmatch : l.dst = selfId ||| (idx <<< 16))
    (hpre : ∀ l2 ∈ pre, l2.dst ≠ selfId ||| (idx <<< 16)) :
    getInputNode g selfId idx
      = (getNode g (l.src &&& 0x7fff)).map (fun n => (n, l.src >>> 16)) := by
  unfold getInputNode
  have hpre2 : pre.find? (fun l2 => l2.dst == selfId ||| (idx <<< 16)) = none := by
    rw [List.find?_eq_none]
    intro x hx
    simpa using hpre x hx
  rw [hsplit, List.find?_append, hpre2, List.find?_cons_of_pos _ (by simpa using hmatch)]
  rfl

/-- Witness for the amended C8 on the concrete two-link graph: resolution
picks the first link (from node 1). -/
theorem c8_witness :
    gC8.m_links = [] ++ (⟨32769, 3⟩ : GLink) :: [⟨32770, 3⟩]
  ∧ getInputNode gC8 3 0
      = (getNode gC8 (32769 &&& 0x7fff)).map (fun n => (n, 32769 >>> 16)) :=
  ⟨rfl, c8_first_matching_link gC8 3 0 [] [⟨32770, 3⟩] ⟨32769, 3⟩ rfl (by decide)
    (by simp)⟩

/-- `Graph::generate` always produces a buffer that starts with the
8-byte `ScriptResource::Header`, whatever the graph. -/
theorem graphGenerate_length (h : HostCtx) (g : Graph) (fuel : Nat) :
    8 ≤ (graphGenerate h g fuel).1.length := by
  unfold graphGenerate
  simp [scrHeader, le32]

/-- The node kinds whose `generate` actively checks a required connection,
with that connection unconnected: `AddNode`/`MulNode` (either data input),
`IfNode` (either flow successor or the condition input), `SetYawNode`
(either data input), `SetVariableNode` (the value input),
`GetPropertyNode`/`SetPropertyNode` (the entity input).  `CompareNode`
performs no such check in the source: its whole body, including the
missing-input check, is compiled out (`#if 0 // TODO`). -/
def requiredConnectionMissing (g : Graph) (n : GNode) : Prop :=
  ((n.data = .add ∨ n.data = .mul)
      ∧ (getInputNode g n.id 0 = none ∨ getInputNode g n.id 1 = none))
  ∨ (n.data = .ifNode
      ∧ (getOutputNode g n.id 0 = none ∨ getOutputNode g n.id 1 = none
          ∨ getInputNode g n.id 1 = none))
  ∨ (n.data = .setYaw
      ∧ (getInputNode g n.id 1 = none ∨ getInputNode g n.id 2 = none))
  ∨ ((∃ v, n.data = .setVar v) ∧ getInputNode g n.id 1 = none)
  ∨ ((∃ p c, n.data = .getProp p c) ∧ getInputNode g n.id 0 = none)
  ∨ ((∃ p v c, n.data = .setProp p v c) ∧ getInputNode g n.id 1 = none)

/-- A graph holding one comparison node (`<`) with both of its data inputs
unconnected. -/
def gC5cmp : Graph := ⟨[⟨1, (0, 0), .ltNode⟩], [], [], 1⟩

/-- C5 (counterexample): a `CompareNode` (here `<`, node 1 of `gC5cmp`)
with both required data inputs unconnected emits nothing AND records NO
diagnostic — its diagnostic string stays empty, refuting the claim that
every node with a required unconnected input leaves a non-empty
diagnostic: `CompareNode::generate`'s missing-input check (which would set
"Missing input") sits in the `#if 0` block and is compiled out. -/
theorem c5_counterexample :
    (genNode hc0 gC5cmp 1 ⟨1, (0, 0), .ltNode⟩ 0 clearedErrs).1 = []
  ∧ (genNode hc0 gC5cmp 1 ⟨1, (0, 0), .ltNode⟩ 0 clearedErrs).2 1 = "" :=
  ⟨rfl, rfl⟩

/-- C5 (amended): every node kind whose `generate` checks a required
connection — Add, Mul, If, SetYaw, SetVariable, GetProperty, SetProperty —
records a non-empty diagnostic on itself when that connection is missing
and emits no bytes at all (neither its own instructions nor any
operand's), and `Graph::generate` still runs to completion, producing a
buffer that holds at least the resource header.  (CompareNode is excluded:
its check is compiled out, see the counterexample.) -/
theorem c5_required_connection_soft_error (h : HostCtx) (g : Graph) (fuel o : Nat)
    (n : GNode) (errs : Errs)
    (hmiss : requiredConnectionMissing g n) :
    (genNode h g (fuel + 1) n o errs).1 = []
  ∧ (genNode h g (fuel + 1) n o errs).2 n.id ≠ ""
  ∧ 8 ≤ (graphGenerate h g fuel).1.length := by
  obtain ⟨nid, npos, ndata⟩ := n
  have key : (genNode h g (fuel + 1) ⟨nid, npos, ndata⟩ o errs).1 = []
      ∧ (genNode h g (fuel + 1) ⟨nid, npos, ndata⟩ o errs).2 nid ≠ "" := by
    rcases hmiss with ⟨hk, hm⟩ | ⟨hk, hm⟩ | ⟨hk, hm⟩ | ⟨⟨v, hk⟩, hm⟩
      | ⟨⟨p, c, hk⟩, hm⟩ | ⟨⟨p, v, c, hk⟩, hm⟩
    · -- Add / Mul, either input missing
      rcases hk with hk | hk <;> subst hk <;> rcases hm with hm | hm
      · rcases h2 : getInputNode g nid 1 with _ | q <;>
          constructor <;> simp [genNode, genNodeStep, hm, h2, setErr]
      · rcases h2 : getInputNode g nid 0 with _ | q <;>
          constructor <;> simp [genNode, genNodeStep, hm, h2, setErr]
      · rcases h2 : getInputNode g nid 1 with _ | q <;>
          constructor <;> simp [genNode, genNodeStep, hm, h2, setErr]
      · rcases h2 : getInputNode g nid 0 with _ | q <;>
          constructor <;> simp [genNode, genNodeStep, hm, h2, setErr]
    · -- If, a successor or the condition missing
      subst hk
      rcases hm with hm | hm | hm
      · rcases h2 : getOutputNode g nid 1 with _ | q <;>
          constructor <;> simp [genNode, genNodeStep, hm, h2, setErr]
      · rcases h2 : getOutputNode g nid 0 with _ | q <;>
          constructor <;> simp [genNode, genNodeStep, hm, h2, setErr]
      · rcases h2 : getOutputNode g nid 0 with _ | q <;>
          rcases h3 : getOutputNode g nid 1 with _ | q2 <;>
          constructor <;> simp [genNode, genNodeStep, hm, h2, h3, setErr]
    · -- SetYaw, either input missing
      subst hk
      rcases hm with hm | hm
      · rcases h2 : getInputNode g nid 2 with _ | q <;>
          constructor <;> simp [genNode, genNodeStep, hm, h2, setErr]
      · rcases h2 : getInputNode g nid 1 with _ | q <;>
          constructor <;> simp [genNode, genNodeStep, hm, h2, setErr]
    · -- SetVariable, value input missing
      subst hk
      constructor <;> simp [genNode, genNodeStep, hm, setErr]
    · -- GetProperty, entity input missing
      subst hk
      constructor <;> simp [genNode, genNodeStep, hm, setErr]
    · -- SetProperty, entity input missing
      subst hk
      constructor <;> simp [genNode, genNodeStep, hm, setErr]
  exact ⟨key.1, key.2, graphGenerate_length h g fuel⟩

/-- A graph with an `Add` node (id 1) whose input 0 is fed by constant
node 2 but whose input 1 is unconnected. -/
def gC5 : Graph :=
  ⟨[⟨1, (0, 0), .add⟩, ⟨2, (0, 0), .const 7⟩], [⟨32770, 1⟩], [], 2⟩

/-- Witness for the amended C5 on the concrete one-armed add graph. -/
theorem c5_witness :
    requiredConnectionMissing gC5 ⟨1, (0, 0), .add⟩
  ∧ ((genNode hc0 gC5 1 ⟨1, (0, 0), .add⟩ 0 clearedErrs).1 = []
      ∧ (genNode hc0 gC5 1 ⟨1, (0, 0), .add⟩ 0 clearedErrs).2 1 ≠ ""
      ∧ 8 ≤ (graphGenerate hc0 gC5 0).1.length) :=
  ⟨Or.inl ⟨Or.inl rfl, Or.inr (by decide)⟩,
    c5_required_connection_soft_error hc0 gC5 0 0 ⟨1, (0, 0), .add⟩ clearedErrs
      (Or.inl ⟨Or.inl rfl, Or.inr (by decide)⟩)⟩

/-! ### Lemmas on writer-call sequences, towards C2 -/

theorem runCmds_append (w : BCWriter) (a b : List BCmd) :
    runCmds w (a ++ b) = runCmds (runCmds w a) b := by
  simp [runCmds]

theorem runCmds_cons (w : BCWriter) (c : BCmd) (cs : List BCmd) :
    runCmds w (c :: cs) = runCmds (runCmd w c) cs := rfl

theorem runCmd_capacity (w : BCWriter) (c : BCmd) :
    (runCmd w c).capacity = w.capacity := by
  cases c <;>
    simp only [runCmd, kvm_bc_end, kvm_bc_pop, kvm_bc_add, kvm_bc_addf, kvm_bc_mul,
      kvm_bc_mulf, kvm_bc_ret, kvm_bc_eq, kvm_bc_neq, kvm_bc_gt, kvm_bc_gtf, kvm_bc_lt,
      kvm_bc_ltf, kvm_bc_jmp, kvm_bc_call, kvm_bc_get, kvm_bc_get_local, kvm_bc_set,
      kvm_bc_syscall, kvm_bc_const, kvm_bc_const_float, kvm_bc_const64,
      kvm_bc_create_label, kvm_bc_place_label, writeSimpleOp, writeOpU32] <;>
    first
      | rfl
      | (split_ifs <;> rfl)

theorem runCmd_buf (w : BCWriter) (c : BCmd) (h : cmdSize c ≤ w.capacity) :
    (runCmd w c).buf = w.buf ++ encCmd c := by
  cases c <;>
    simp only [runCmd, cmdSize, encCmd, kvm_bc_end, kvm_bc_pop, kvm_bc_add, kvm_bc_addf,
      kvm_bc_mul, kvm_bc_mulf, kvm_bc_ret, kvm_bc_eq, kvm_bc_neq, kvm_bc_gt, kvm_bc_gtf,
      kvm_bc_lt, kvm_bc_ltf, kvm_bc_jmp, kvm_bc_call, kvm_bc_get, kvm_bc_get_local,
      kvm_bc_set, kvm_bc_syscall, kvm_bc_const, kvm_bc_const_float, kvm_bc_const64,
      kvm_bc_create_label, kvm_bc_place_label, writeSimpleOp, writeOpU32] at h ⊢ <;>
    first
      | simp
      | rw [if_neg (by omega)]

theorem runCmd_labels_length (w : BCWriter) (c : BCmd) :
    (runCmd w c).labels.length = w.labels.length := by
  cases c <;>
    simp only [runCmd, kvm_bc_end, kvm_bc_pop, kvm_bc_add, kvm_bc_addf, kvm_bc_mul,
      kvm_bc_mulf, kvm_bc_ret, kvm_bc_eq, kvm_bc_neq, kvm_bc_gt, kvm_bc_gtf, kvm_bc_lt,
      kvm_bc_ltf, kvm_bc_jmp, kvm_bc_call, kvm_bc_get, kvm_bc_get_local, kvm_bc_set,
      kvm_bc_syscall, kvm_bc_const, kvm_bc_const_float, kvm_bc_const64,
      kvm_bc_create_label, kvm_bc_place_label, writeSimpleOp, writeOpU32] <;>
    first
      | rfl
      | simp [List.length_set]
      | (split_ifs <;> rfl)

theorem runCmd_labelsCount (w : BCWriter) (c : BCmd) :
    (runCmd w c).labelsCount
      = w.labelsCount + (if c = BCmd.cCreateLabel then 1 else 0) := by
  cases c <;>
    simp only [runCmd, kvm_bc_end, kvm_bc_pop, kvm_bc_add, kvm_bc_addf, kvm_bc_mul,
      kvm_bc_mulf, kvm_bc_ret, kvm_bc_eq, kvm_bc_neq, kvm_bc_gt, kvm_bc_gtf, kvm_bc_lt,
      kvm_bc_ltf, kvm_bc_jmp, kvm_bc_call, kvm_bc_get, kvm_bc_get_local, kvm_bc_set,
      kvm_bc_syscall, kvm_bc_const, kvm_bc_const_float, kvm_bc_const64,
      kvm_bc_create_label, kvm_bc_place_label, writeSimpleOp, writeOpU32] <;>
    (try split_ifs) <;> simp_all

theorem runCmds_capacity (cmds : List BCmd) : ∀ w : BCWriter,
    (runCmds w cmds).capacity = w.capacity := by
  induction cmds with
  | nil => intro w; rfl
  | cons c cs ih =>
    intro w
    rw [runCmds_cons, ih, runCmd_capacity]

theorem runCmds_labels_length (cmds : List BCmd) : ∀ w : BCWriter,
    (runCmds w cmds).labels.length = w.labels.length := by
  induction cmds with
  | nil => intro w; rfl
  | cons c cs ih =>
    intro w
    rw [runCmds_cons, ih, runCmd_labels_length]

theorem runCmds_labelsCount (cmds : List BCmd) : ∀ w : BCWriter,
    (runCmds w cmds).labelsCount = w.labelsCount + countCreates cmds := by
  induction cmds with
  | nil => intro w; simp [runCmds, countCreates]
  | cons c cs ih =>
    intro w
    rw [runCmds_cons, ih, runCmd_labelsCount]
    simp only [countCreates, List.countP_cons]
    have : (if (c = BCmd.cCreateLabel : Bool) = true then 1 else 0)
        = (if c = BCmd.cCreateLabel then 1 else 0) := by
      by_cases hc : c = BCmd.cCreateLabel <;> simp [hc]
    omega

theorem runCmds_buf (cmds : List BCmd) : ∀ w : BCWriter,
    (∀ c ∈ cmds, cmdSize c ≤ w.capacity) →
    (runCmds w cmds).buf = w.buf ++ encCmds cmds := by
  induction cmds with
  | nil => intro w _; simp [runCmds, encCmds]
  | cons c cs ih =>
    intro w hcap
    rw [runCmds_cons, ih (runCmd w c)
      (fun c2 hc2 => by rw [runCmd_capacity]; exact hcap c2 (List.mem_cons_of_mem _ hc2))]
    rw [runCmd_buf w c (hcap c (List.mem_cons_self _ _))]
    simp [encCmds]

theorem runCmd_labels_getD (w : BCWriter) (c : BCmd) (L : Nat)
    (hLc : L < w.labelsCount) (hne : c ≠ BCmd.cPlaceLabel L) :
    (runCmd w c).labels.getD L 0 = w.labels.getD L 0 := by
  cases c with
  | cCreateLabel =>
    simp only [runCmd, kvm_bc_create_label, List.getD_eq_getElem?_getD]
    rw [List.getElem?_set_ne (by omega)]
  | cPlaceLabel l =>
    have hl : l ≠ L := fun he => hne (by rw [he])
    simp only [runCmd, kvm_bc_place_label, List.getD_eq_getElem?_getD]
    rw [List.getElem?_set_ne hl]
  | _ =>
    simp only [runCmd, kvm_bc_end, kvm_bc_pop, kvm_bc_add, kvm_bc_addf, kvm_bc_mul,
      kvm_bc_mulf, kvm_bc_ret, kvm_bc_eq, kvm_bc_neq, kvm_bc_gt, kvm_bc_gtf, kvm_bc_lt,
      kvm_bc_ltf, kvm_bc_jmp, kvm_bc_call, kvm_bc_get, kvm_bc_get_local, kvm_bc_set,
      kvm_bc_syscall, kvm_bc_const, kvm_bc_const_float, kvm_bc_const64,
      writeSimpleOp, writeOpU32]
    split_ifs <;> rfl

theorem runCmds_labels_stable (cmds : List BCmd) : ∀ (w : BCWriter) (L : Nat),
    L < w.labelsCount → BCmd.cPlaceLabel L ∉ cmds →
    (runCmds w cmds).labels.getD L 0 = w.labels.getD L 0 := by
  induction cmds with
  | nil => intro w L _ _; rfl
  | cons c cs ih =>
    intro w L hL hnp
    have hc : c ≠ BCmd.cPlaceLabel L := fun he => hnp (he ▸ List.mem_cons_self _ _)
    have hcs : BCmd.cPlaceLabel L ∉ cs := fun hm => hnp (List.mem_cons_of_mem _ hm)
    have hL2 : L < (runCmd w c).labelsCount := by
      rw [runCmd_labelsCount]
      omega
    rw [runCmds_cons, ih (runCmd w c) L hL2 hcs, runCmd_labels_getD w c L hL hc]

theorem place_label_getD (w : BCWriter) (L : Nat) (hlen : L < w.labels.length) :
    (kvm_bc_place_label L w).labels.getD L 0 = w.buf.length := by
  simp only [kvm_bc_place_label, List.getD_eq_getElem?_getD]
  rw [List.getElem?_set_self hlen]
  rfl

theorem cmdSize_le_bcSize (cmds : List BCmd) (c : BCmd) (hc : c ∈ cmds) :
    cmdSize c ≤ bcSize cmds :=
  List.single_le_sum (fun _ _ => Nat.zero_le _) _ (List.mem_map_of_mem cmdSize hc)

/-! ### The patch pass on writer-produced streams -/

/-- What the finalize pass leaves for one instruction: jumps and calls get
their operand replaced by the label's resolved offset, everything else is
copied unchanged. -/
def patchOne (labels : List Nat) : BCmd → List Nat
  | .cJmp l => [OP_JMP, labels.getD l 0]
  | .cCall l => [OP_CALL, labels.getD l 0]
  | c => encCmd c

theorem patchOne_length (labels : List Nat) (c : BCmd) :
    (patchOne labels c).length = (encCmd c).length := by
  cases c <;> rfl

theorem patchBC_nil (labels : List Nat) : patchBC labels [] = [] := by
  simp [patchBC]

theorem patchBC_encCmd (labels : List Nat) (c : BCmd) (rest : List Nat) :
    patchBC labels (encCmd c ++ rest) = patchOne labels c ++ patchBC labels rest := by
  cases c <;>
  all_goals first
    | (simp only [encCmd, patchOne, List.nil_append]; done)
    | (conv_lhs => rw [patchBC.eq_def]
       simp [encCmd, patchOne, OP_END, OP_POP, OP_ADD, OP_ADDF, OP_MUL,
         OP_MULF, OP_RET, OP_EQ, OP_NEQ, OP_GT, OP_GTF, OP_LT, OP_LTF, OP_JMP, OP_CALL,
         OP_GET, OP_GET_LOCAL, OP_SET, OP_SYSCALL, OP_CONST32, OP_CONST64])

theorem patchBC_encCmds (labels : List Nat) (cmds : List BCmd) : ∀ rest : List Nat,
    patchBC labels (encCmds cmds ++ rest)
      = cmds.flatMap (patchOne labels) ++ patchBC labels rest := by
  induction cmds with
  | nil => intro rest; simp [encCmds]
  | cons c cs ih =>
    intro rest
    have h1 : encCmds (c :: cs) ++ rest = encCmd c ++ (encCmds cs ++ rest) := by
      simp [encCmds]
    rw [h1, patchBC_encCmd, ih]
    simp

theorem flatMap_patchOne_length (labels : List Nat) (cmds : List BCmd) :
    (cmds.flatMap (patchOne labels)).length = (encCmds cmds).length := by
  induction cmds with
  | nil => rfl
  | cons c cs ih => simp [encCmds, patchOne_length, ih]

theorem getD_append_at (A B : List Nat) (x : Nat) :
    (A ++ x :: B).getD A.length 0 = x := by
  simp only [List.getD_eq_getElem?_getD]
  rw [List.getElem?_append_right (Nat.le_refl A.length)]
  simp

theorem getD_append_at1 (A B : List Nat) (x y : Nat) :
    (A ++ x :: y :: B).getD (A.length + 1) 0 = y := by
  simp only [List.getD_eq_getElem?_getD]
  rw [List.getElem?_append_right (by omega)]
  have : A.length + 1 - A.length = 1 := by omega
  rw [this]
  simp

theorem encCmds_append (a b : List BCmd) : encCmds (a ++ b) = encCmds a ++ encCmds b := by
  simp [encCmds]

theorem encCmds_cons (c : BCmd) (cs : List BCmd) :
    encCmds (c :: cs) = encCmd c ++ encCmds cs := by
  simp [encCmds]

theorem countCreates_append (a b : List BCmd) :
    countCreates (a ++ b) = countCreates a + countCreates b := by
  simp [countCreates, List.countP_append]

/-- The shared core of C2: for a writer session `cmds` within capacity in
which the forward-referencing instruction `j` (a jump or a call: any
command encoding as opcode `opc` plus the label-id operand `L`, patched by
the finalize pass to the label's resolved offset) is emitted with `L`
created earlier (in `c1`) and placed afterwards, the placement being the
last one of `L`: after `kvm_bc_end_write`, the instruction's opcode word is
still `opc` and its operand word holds exactly the offset the write cursor
had at the moment of placement — `|c1| + 2 + |c2|` in 32-bit units, the
position right after the placement. -/
theorem c2_core
    (cmds c1 c2 c3 : List BCmd) (j : BCmd) (opc L cap : Nat)
    (hsplit : cmds = c1 ++ (j :: c2) ++ (BCmd.cPlaceLabel L :: c3))
    (henc : encCmd j = [opc, L])
    (hjc : j ≠ BCmd.cCreateLabel)
    (hpat : ∀ labels : List Nat, patchOne labels j = [opc, labels.getD L 0])
    (hcap : bcSize cmds ≤ cap)
    (hL : L < countCreates c1)
    (hc3 : BCmd.cPlaceLabel L ∉ c3)
    (hcreates : countCreates cmds ≤ 1024) :
    (bcEndWrite (runCmds (bcStartWrite cap) cmds)).buf.getD ((encCmds c1).length) 0 = opc
  ∧ (bcEndWrite (runCmds (bcStartWrite cap) cmds)).buf.getD ((encCmds c1).length + 1) 0
      = (encCmds c1).length + 2 + (encCmds c2).length := by
  have hsz : ∀ c ∈ cmds, cmdSize c ≤ cap :=
    fun c hc => Nat.le_trans (cmdSize_le_bcSize cmds c hc) hcap
  have hcc1 : countCreates c1 ≤ countCreates cmds := by
    rw [hsplit, countCreates_append, countCreates_append]
    omega
  have hL1024 : L < 1024 := by omega
  -- stage-wise decomposition of the run
  have hrun : runCmds (bcStartWrite cap) cmds
      = runCmds (runCmd (runCmds (runCmd (runCmds (bcStartWrite cap) c1) j) c2)
          (BCmd.cPlaceLabel L)) c3 := by
    rw [hsplit, runCmds_append, runCmds_append, runCmds_cons, runCmds_cons]
  -- names for the intermediate writers
  set w1 := runCmds (bcStartWrite cap) c1 with hw1
  set wj := runCmd w1 j with hwj
  set w3 := runCmds wj c2 with hw3
  set wp := runCmd w3 (BCmd.cPlaceLabel L) with hwp
  -- capacities
  have hcap1 : w1.capacity = cap := by rw [hw1, runCmds_capacity]; rfl
  have hcapj : wj.capacity = cap := by rw [hwj, runCmd_capacity, hcap1]
  -- buffers at each stage
  have hbuf1 : w1.buf = encCmds c1 := by
    rw [hw1, runCmds_buf c1 (bcStartWrite cap)
      (fun c hc => hsz c (by
        rw [hsplit]
        exact List.mem_append_left _ (List.mem_append_left _ hc)))]
    rfl
  have hjmem : j ∈ cmds := by
    rw [hsplit]
    exact List.mem_append_left _ (List.mem_append_right _ (List.mem_cons_self _ _))
  have hbufj : wj.buf = encCmds c1 ++ [opc, L] := by
    rw [hwj, runCmd_buf w1 _ (by rw [hcap1]; exact hsz _ hjmem), hbuf1, henc]
  have hbuf3 : w3.buf = (encCmds c1 ++ [opc, L]) ++ encCmds c2 := by
    rw [hw3, runCmds_buf c2 wj
      (fun c hc => by
        rw [hcapj]
        refine hsz c ?_
        rw [hsplit]
        exact List.mem_append_left _
          (List.mem_append_right _ (List.mem_cons_of_mem _ hc))),
      hbufj]
  have hlen3 : w3.buf.length = (encCmds c1).length + 2 + (encCmds c2).length := by
    rw [hbuf3]
    simp [List.length_append]
    omega
  -- label counts
  have hcount1 : w1.labelsCount = countCreates c1 := by
    rw [hw1, runCmds_labelsCount]
    simp only [bcStartWrite]
    omega
  have hcountj : wj.labelsCount = countCreates c1 := by
    rw [hwj, runCmd_labelsCount, hcount1, if_neg hjc]
    omega
  have hcount3 : L < w3.labelsCount := by
    rw [hw3, runCmds_labelsCount, hcountj]
    omega
  have hcountp : L < wp.labelsCount := by
    rw [hwp, runCmd_labelsCount, if_neg (by simp)]
    omega
  -- label-table lengths
  have hll3 : w3.labels.length = 1024 := by
    rw [hw3, runCmds_labels_length, hwj, runCmd_labels_length, hw1,
      runCmds_labels_length]
    simp only [bcStartWrite, List.length_replicate]
  -- the placement records the cursor offset
  have hplace : wp.labels.getD L 0 = (encCmds c1).length + 2 + (encCmds c2).length := by
    rw [hwp]
    show (kvm_bc_place_label L w3).labels.getD L 0 = _
    rw [place_label_getD w3 L (by omega), hlen3]
  -- the final labels keep that value
  have hfinal : (runCmds (bcStartWrite cap) cmds).labels.getD L 0
      = (encCmds c1).length + 2 + (encCmds c2).length := by
    rw [hrun, runCmds_labels_stable c3 wp L hcountp hc3, hplace]
  -- the final buffer is the full encoding
  have hbuff : (runCmds (bcStartWrite cap) cmds).buf = encCmds cmds := by
    rw [runCmds_buf cmds (bcStartWrite cap) (fun c hc => hsz c hc)]
    rfl
  -- the patched buffer
  set wF := runCmds (bcStartWrite cap) cmds with hwF
  have hpatched : (bcEndWrite wF).buf
      = c1.flatMap (patchOne wF.labels)
        ++ opc :: wF.labels.getD L 0
        :: patchBC wF.labels (encCmds c2 ++ encCmds (BCmd.cPlaceLabel L :: c3)) := by
    show patchBC wF.labels wF.buf = _
    rw [hbuff, hsplit, encCmds_append, encCmds_append, encCmds_cons,
      List.append_assoc, List.append_assoc, patchBC_encCmds wF.labels c1,
      patchBC_encCmd, hpat wF.labels]
    rfl
  have hAlen : (c1.flatMap (patchOne wF.labels)).length = (encCmds c1).length :=
    flatMap_patchOne_length wF.labels c1
  constructor
  · -- the opcode word survives the patch
    rw [hpatched, ← hAlen, getD_append_at]
  · -- the operand word holds the placement offset
    rw [hpatched, ← hAlen, getD_append_at1, hfinal, hAlen]

set_option linter.unusedVariables false in
/-- C2: a jump OR call instruction emitted through the writer with label
`L` as operand before `L` is placed, within capacity, resolves after the
finalize pass (`kvm_bc_end_write`) to exactly the byte offset the write
cursor had at the moment of placement (`|c1| + 2 + |c2|` in 32-bit units,
the position of the instruction written immediately after the placement),
and executing the patched instruction in the VM transfers control exactly
there: a jump continues at that offset with the state untouched, a call
continues at that offset after pushing the return address. -/
theorem c2_forward_label_resolution
    (cmds c1 c2 c3 : List BCmd) (j : BCmd) (L cap : Nat) (fo : FloatOps)
    (sys : Syscall) (sp : Nat) (vm : KVM)
    (hj : j = BCmd.cJmp L ∨ j = BCmd.cCall L)
    (hsplit : cmds = c1 ++ (j :: c2) ++ (BCmd.cPlaceLabel L :: c3))
    (hcap : bcSize cmds ≤ cap)
    (hL : L < countCreates c1)
    (hc2 : BCmd.cPlaceLabel L ∉ c2)
    (hc3 : BCmd.cPlaceLabel L ∉ c3)
    (hcreates : countCreates cmds ≤ 1024) :
    (bcEndWrite (runCmds (bcStartWrite cap) cmds)).buf.getD ((encCmds c1).length + 1) 0
      = (encCmds c1).length + 2 + (encCmds c2).length
  ∧ (j = BCmd.cJmp L →
      kvmStep fo sys (bcEndWrite (runCmds (bcStartWrite cap) cmds)).buf
        ((encCmds c1).length) sp vm
        = .cont ((encCmds c1).length + 2 + (encCmds c2).length) sp vm none)
  ∧ (j = BCmd.cCall L →
      kvmStep fo sys (bcEndWrite (runCmds (bcStartWrite cap) cmds)).buf
        ((encCmds c1).length) sp vm
        = .cont ((encCmds c1).length + 2 + (encCmds c2).length) (uadd sp 1)
            { vm with stack := updFn vm.stack sp ((encCmds c1).length + 2) } none) := by
  rcases hj with hj | hj
  · subst hj
    obtain ⟨hop, hoff⟩ := c2_core cmds c1 c2 c3 (BCmd.cJmp L) OP_JMP L cap hsplit rfl
      (by simp) (fun labels => rfl) hcap hL hc3 hcreates
    have hop15 : (bcEndWrite (runCmds (bcStartWrite cap) cmds)).buf.getD
        ((encCmds c1).length) 0 = 15 := hop
    refine ⟨hoff, ?_, ?_⟩
    · intro _
      simp only [kvmStep]
      rw [hop15, hoff]
    · intro hcl
      exact absurd hcl (by simp)
  · subst hj
    obtain ⟨hop, hoff⟩ := c2_core cmds c1 c2 c3 (BCmd.cCall L) OP_CALL L cap hsplit rfl
      (by simp) (fun labels => rfl) hcap hL hc3 hcreates
    have hop17 : (bcEndWrite (runCmds (bcStartWrite cap) cmds)).buf.getD
        ((encCmds c1).length) 0 = 17 := hop
    refine ⟨hoff, ?_, ?_⟩
    · intro hjm
      exact absurd hjm (by simp)
    · intro _
      simp only [kvmStep]
      rw [hop17, hoff]

/-- Witness for C2, exercising both covered instructions: the session
create-label, jmp (resp. call) to it, one `end` instruction, place the
label, one more instruction.  After finalize the operand (word 1) holds
offset 3, where the post-placement instruction begins; executing the
patched jump continues there, and the patched call continues there after
pushing the return address 2. -/
theorem c2_witness :
    (bcEndWrite (runCmds (bcStartWrite 100)
        [BCmd.cCreateLabel, BCmd.cJmp 0, BCmd.cEnd, BCmd.cPlaceLabel 0,
          BCmd.cConst 7])).buf.getD 1 0 = 3
  ∧ kvmStep fo0 sysId (bcEndWrite (runCmds (bcStartWrite 100)
      [BCmd.cCreateLabel, BCmd.cJmp 0, BCmd.cEnd, BCmd.cPlaceLabel 0,
        BCmd.cConst 7])).buf 0 0 kvm0
      = .cont 3 0 kvm0 none
  ∧ kvmStep fo0 sysId (bcEndWrite (runCmds (bcStartWrite 100)
      [BCmd.cCreateLabel, BCmd.cCall 0, BCmd.cEnd, BCmd.cPlaceLabel 0,
        BCmd.cConst 7])).buf 0 0 kvm0
      = .cont 3 (uadd 0 1) { kvm0 with stack := updFn kvm0.stack 0 2 } none :=
  ⟨(c2_forward_label_resolution
      [BCmd.cCreateLabel, BCmd.cJmp 0, BCmd.cEnd, BCmd.cPlaceLabel 0, BCmd.cConst 7]
      [BCmd.cCreateLabel] [BCmd.cEnd] [BCmd.cConst 7] (BCmd.cJmp 0) 0 100 fo0 sysId
      0 kvm0 (Or.inl rfl) rfl (by decide) (by decide) (by decide) (by decide)
      (by decide)).1,
   (c2_forward_label_resolution
      [BCmd.cCreateLabel, BCmd.cJmp 0, BCmd.cEnd, BCmd.cPlaceLabel 0, BCmd.cConst 7]
      [BCmd.cCreateLabel] [BCmd.cEnd] [BCmd.cConst 7] (BCmd.cJmp 0) 0 100 fo0 sysId
      0 kvm0 (Or.inl rfl) rfl (by decide) (by decide) (by decide) (by decide)
      (by decide)).2.1 rfl,
   (c2_forward_label_resolution
      [BCmd.cCreateLabel, BCmd.cCall 0, BCmd.cEnd, BCmd.cPlaceLabel 0, BCmd.cConst 7]
      [BCmd.cCreateLabel] [BCmd.cEnd] [BCmd.cConst 7] (BCmd.cCall 0) 0 100 fo0 sysId
      0 kvm0 (Or.inr rfl) rfl (by decide) (by decide) (by decide) (by decide)
      (by decide)).2.2 rfl⟩

end VisualScript
